import Mathlib

/-!
Verification of the client-side session cache in `static/js/auth.js`.

The module keeps two module-level mutable variables (`currentUser`,
`fetchPromise`), reads and writes the browser `localStorage` under the
fixed key `"access_token"`, issues at most one identity fetch at a time,
and exposes `getCurrentUser`, `logout`, `getToken`, `setToken` and
`clearUserCache`.

The embedding makes the mutable module state explicit in `AuthState`.
Since the code is single-threaded and suspends only at the network call,
`getCurrentUser` is split into its synchronous phase (`getCurrentUser`
below, everything up to and including issuing the fetch) and the
resumption that runs when the fetch settles (`resumeFetch`, the body of
the `try/catch/finally` after the `await`).  JavaScript truthiness is
modelled by `truthy` on a small JS value type.
-/

namespace Auth

/-- A JavaScript value as it can appear in this module: `null`, a JSON
scalar, or an object (identified by a tag; the module never inspects the
user object's fields). -/
inductive JSValue where
  | vNull
  | vBool (b : Bool)
  | vNum (n : Int)
  | vStr (s : String)
  | vObj (tag : Nat)
  deriving DecidableEq, Repr

/-- JavaScript truthiness: `null`, `false`, `0` and `""` are falsy;
every object is truthy. -/
def truthy : JSValue → Bool
  | .vNull => false
  | .vBool b => b
  | .vNum n => n != 0
  | .vStr s => s != ""
  | .vObj _ => true

/-- `localStorage` contents: an association list of key/value pairs. -/
abbrev Storage := List (String × String)

/-- `localStorage.getItem(k)`: the stored string, or `none` for JS `null`. -/
def getItem (st : Storage) (k : String) : Option String :=
  (st.find? (fun kv => kv.1 == k)).map (·.2)

/-- `localStorage.removeItem(k)`. -/
def removeItem (st : Storage) (k : String) : Storage :=
  st.filter (fun kv => kv.1 != k)

/-- `localStorage.setItem(k, v)`. -/
def setItem (st : Storage) (k v : String) : Storage :=
  (k, v) :: removeItem st k

/-- The observable state of the module: the two module-level variables,
the storage, a counter for allocating promise identities, the list of
network requests issued so far (URL and `Authorization` header), the
`console.error` log, and `window.location.href`. -/
structure AuthState where
  currentUser : JSValue
  fetchPromise : Option Nat
  storage : Storage
  nextPromiseId : Nat
  requests : List (String × String)
  errorLog : List String
  location : String
  deriving DecidableEq, Repr

/-- What a `getCurrentUser()` call hands back to its caller: an already
settled value, or the shared pending promise (identified by its id). -/
inductive CallResult where
  | resolved (v : JSValue)
  | pending (p : Nat)
  deriving DecidableEq, Repr

/-- Synchronous phase of `getCurrentUser()`:
`if (currentUser) return currentUser;` then
`if (fetchPromise) return fetchPromise;` then
`const token = localStorage.getItem("access_token"); if (!token) return null;`
and otherwise start the async IIFE, which issues the fetch with header
`Authorization: Bearer <token>` and suspends; the new promise is stored
in `fetchPromise` and returned.  `!token` is true for JS `null` and for
the empty string. -/
def getCurrentUser (s : AuthState) : AuthState × CallResult :=
  if truthy s.currentUser then
    (s, .resolved s.currentUser)
  else
    match s.fetchPromise with
    | some p => (s, .pending p)
    | none =>
      match getItem s.storage "access_token" with
      | none => (s, .resolved .vNull)
      | some token =>
        if token == "" then (s, .resolved .vNull)
        else
          let p := s.nextPromiseId
          ({ s with
              requests := s.requests ++ [("/api/users/me", "Bearer " ++ token)],
              fetchPromise := some p,
              nextPromiseId := p + 1 },
            .pending p)

/-- How the awaited fetch can settle, as observed by the `try` body:
`response.ok` with a parsed JSON body, `response.ok` but `response.json()`
rejects, a non-OK response, or the fetch itself throwing. -/
inductive FetchOutcome where
  | ok (body : JSValue)
  | okParseError
  | notOk
  | netError
  deriving DecidableEq, Repr

/-- Resumption of the async IIFE once the fetch settles: on OK,
`currentUser = await response.json(); return currentUser;`; on non-OK,
`localStorage.removeItem("access_token"); return null;`; on a thrown
fault (network error or JSON parse rejection), `console.error(...)` and
`return null`; in every case `finally { fetchPromise = null; }`.
The returned `JSValue` is the value the pending promise resolves with. -/
def resumeFetch (s : AuthState) (o : FetchOutcome) : AuthState × JSValue :=
  match o with
  | .ok body =>
      ({ s with currentUser := body, fetchPromise := none }, body)
  | .okParseError =>
      ({ s with errorLog := s.errorLog ++ ["Error fetching current user:"],
                fetchPromise := none }, .vNull)
  | .notOk =>
      ({ s with storage := removeItem s.storage "access_token",
                fetchPromise := none }, .vNull)
  | .netError =>
      ({ s with errorLog := s.errorLog ++ ["Error fetching current user:"],
                fetchPromise := none }, .vNull)

/-- `logout()`: remove the stored token, null the cached user, navigate
to `/`.  (It does not touch `fetchPromise`.) -/
def logout (s : AuthState) : AuthState :=
  { s with storage := removeItem s.storage "access_token",
           currentUser := .vNull,
           location := "/" }

/-- `getToken()`. -/
def getToken (s : AuthState) : Option String :=
  getItem s.storage "access_token"

/-- `setToken(token)`. -/
def setToken (s : AuthState) (t : String) : AuthState :=
  { s with storage := setItem s.storage "access_token" t }

/-- `clearUserCache()`: null only the in-memory cached user. -/
def clearUserCache (s : AuthState) : AuthState :=
  { s with currentUser := .vNull }

/-- Events of the single-threaded event loop: a `getCurrentUser()` call
(its synchronous phase), the in-flight fetch settling, and the other
exported mutators. -/
inductive Event where
  | call
  | settle (o : FetchOutcome)
  | evLogout
  | evClearUserCache
  | evSetToken (t : String)

/-- One event-loop step.  A fetch can settle only while one is in
flight. -/
def step (s : AuthState) : Event → AuthState
  | .call => (getCurrentUser s).1
  | .settle o => if s.fetchPromise.isSome then (resumeFetch s o).1 else s
  | .evLogout => logout s
  | .evClearUserCache => clearUserCache s
  | .evSetToken t => setToken s t

/-- Module state at page load: both module variables `null`, arbitrary
pre-existing storage and location, nothing fetched or logged. -/
def init (st : Storage) (loc : String) : AuthState :=
  { currentUser := .vNull, fetchPromise := none, storage := st,
    nextPromiseId := 0, requests := [], errorLog := [], location := loc }

/-- Run a sequence of event-loop steps. -/
def run (s : AuthState) (es : List Event) : AuthState :=
  es.foldl step s

/-- Key invariant of the module: while a fetch is in flight, the cached
user is falsy (so the cache check cannot shadow the pending promise). -/
def Inv (s : AuthState) : Prop :=
  ∀ p, s.fetchPromise = some p → truthy s.currentUser = false

/-- The synchronous phase of a call never changes the cached user. -/
theorem getCurrentUser_currentUser (s : AuthState) :
    ((getCurrentUser s).1).currentUser = s.currentUser := by
  unfold getCurrentUser
  split
  · rfl
  · split
    · rfl
    · split
      · rfl
      · split <;> rfl

/-- With a truthy cached user, a call returns it and changes nothing. -/
theorem getCurrentUser_cached (s : AuthState) (h : truthy s.currentUser = true) :
    getCurrentUser s = (s, .resolved s.currentUser) := by
  simp [getCurrentUser, h]

/-- With a falsy cached user and a fetch in flight, a call returns the
shared pending promise and changes nothing. -/
theorem getCurrentUser_pending (s : AuthState) (p : Nat)
    (hcu : truthy s.currentUser = false) (hfp : s.fetchPromise = some p) :
    getCurrentUser s = (s, .pending p) := by
  simp [getCurrentUser, hcu, hfp]

/-- With a falsy cached user, no fetch in flight and a truthy stored
token, a call issues exactly one request and installs the marker. -/
theorem getCurrentUser_starts (s : AuthState) (t : String)
    (hcu : truthy s.currentUser = false) (hfp : s.fetchPromise = none)
    (hti : getItem s.storage "access_token" = some t)
    (hte : (t == "") = false) :
    getCurrentUser s =
      ({ s with
          requests := s.requests ++ [("/api/users/me", "Bearer " ++ t)],
          fetchPromise := some s.nextPromiseId,
          nextPromiseId := s.nextPromiseId + 1 },
        .pending s.nextPromiseId) := by
  simp [getCurrentUser, hcu, hfp, hti, hte]

/-- A call preserves the invariant. -/
theorem inv_call (s : AuthState) (h : Inv s) : Inv (getCurrentUser s).1 := by
  intro p hp
  rw [getCurrentUser_currentUser]
  cases hcu : truthy s.currentUser with
  | false => rfl
  | true =>
    rw [getCurrentUser_cached s hcu] at hp
    have hfalse := h p hp
    rw [hfalse] at hcu
    exact Bool.noConfusion hcu

/-- Every event-loop step preserves the invariant. -/
theorem inv_step (s : AuthState) (e : Event) (h : Inv s) : Inv (step s e) := by
  cases e with
  | call => exact inv_call s h
  | settle o =>
    simp only [step]
    split
    · cases o <;> intro p hp <;> simp [resumeFetch] at hp
    · exact h
  | evLogout => intro p hp; rfl
  | evClearUserCache => intro p hp; rfl
  | evSetToken t => intro p hp; exact h p hp

/-- Every reachable state satisfies the invariant. -/
theorem inv_run (st : Storage) (loc : String) (es : List Event) :
    Inv (run (init st loc) es) := by
  have key : ∀ (l : List Event) (s : AuthState), Inv s → Inv (run s l) := by
    intro l
    induction l with
    | nil => intro s h; exact h
    | cons e l ih => intro s h; exact ih _ (inv_step s e h)
  refine key es _ ?_
  intro p hp
  simp [init] at hp

/-- Removing a key really removes it from storage. -/
theorem getItem_removeItem (st : Storage) (k : String) :
    getItem (removeItem st k) k = none := by
  induction st with
  | nil => rfl
  | cons kv l ih =>
    cases hb : (kv.1 != k) with
    | false => simpa [removeItem, List.filter_cons, hb] using ih
    | true =>
      have hk : (kv.1 == k) = false := by simpa [bne] using hb
      simp [removeItem, List.filter_cons, hb, getItem, List.find?_cons, hk]

/-- C1: along every event sequence, at most one identity fetch is
pending; any `getCurrentUser()` call made while a fetch is in flight
returns the very same pending promise and issues no request, and from an
idle state with a token a pair of back-to-back calls yields one shared
pending promise and exactly one network request. -/
theorem C1_single_flight (st : Storage) (loc : String) (es : List Event) :
    (∀ p, (run (init st loc) es).fetchPromise = some p →
      getCurrentUser (run (init st loc) es)
        = (run (init st loc) es, .pending p))
    ∧
    (∀ t, (run (init st loc) es).fetchPromise = none →
      truthy (run (init st loc) es).currentUser = false →
      getItem (run (init st loc) es).storage "access_token" = some t →
      (t == "") = false →
      (getCurrentUser (run (init st loc) es)).2
          = .pending (run (init st loc) es).nextPromiseId
      ∧ (getCurrentUser (run (init st loc) es)).1.requests.length
          = (run (init st loc) es).requests.length + 1
      ∧ getCurrentUser (getCurrentUser (run (init st loc) es)).1
          = ((getCurrentUser (run (init st loc) es)).1,
             .pending (run (init st loc) es).nextPromiseId)) := by
  constructor
  · intro p hp
    exact getCurrentUser_pending _ p (inv_run st loc es p hp) hp
  · intro t hfp hcu hti hte
    rw [getCurrentUser_starts _ t hcu hfp hti hte]
    refine ⟨rfl, by simp, ?_⟩
    exact getCurrentUser_pending _ _ hcu rfl

/-- Witness for C1 at a concrete storage and event sequence. -/
theorem C1_witness :
    (getCurrentUser (run (init [("access_token", "tok")] "/") [Event.call])
        = (run (init [("access_token", "tok")] "/") [Event.call],
           CallResult.pending 0))
    ∧ (getCurrentUser (run (init [("access_token", "tok")] "/") [])).2
        = CallResult.pending 0 :=
  ⟨(C1_single_flight [("access_token", "tok")] "/" [Event.call]).1 0 rfl,
   ((C1_single_flight [("access_token", "tok")] "/" []).2 "tok" rfl rfl rfl
      rfl).1⟩

/-- C2: on a non-OK response the resumption removes the stored token
from storage under key `access_token`, resolves to `null`, and leaves
the cached user unchanged. -/
theorem C2_notOk_clears_token (s : AuthState) :
    (resumeFetch s .notOk).2 = .vNull
    ∧ getItem (resumeFetch s .notOk).1.storage "access_token" = none
    ∧ (resumeFetch s .notOk).1.currentUser = s.currentUser :=
  ⟨rfl, getItem_removeItem s.storage "access_token", rfl⟩

/-- C3: when the fetch throws or the body fails to parse, the resumption
appends to the error log, resolves to `null`, and leaves storage (hence
the token) and the cached user unchanged; no exception escapes (the
resumption is total and returns an ordinary value). -/
theorem C3_fault_preserves_token (s : AuthState) :
    (resumeFetch s .netError).2 = .vNull
    ∧ (resumeFetch s .netError).1.storage = s.storage
    ∧ (resumeFetch s .netError).1.currentUser = s.currentUser
    ∧ (resumeFetch s .netError).1.errorLog
        = s.errorLog ++ ["Error fetching current user:"]
    ∧ (resumeFetch s .okParseError).2 = .vNull
    ∧ (resumeFetch s .okParseError).1.storage = s.storage
    ∧ (resumeFetch s .okParseError).1.currentUser = s.currentUser
    ∧ (resumeFetch s .okParseError).1.errorLog
        = s.errorLog ++ ["Error fetching current user:"] :=
  ⟨rfl, rfl, rfl, rfl, rfl, rfl, rfl, rfl⟩

/-- C4: with a token stored and an OK JSON object response, the first
call issues one request and its promise resolves to the object, which is
cached; a second call returns the same object with no state change and
hence no further request. -/
theorem C4_ok_caches (s : AuthState) (t : String) (d : Nat)
    (hcu : truthy s.currentUser = false)
    (hfp : s.fetchPromise = none)
    (hti : getItem s.storage "access_token" = some t)
    (hte : (t == "") = false) :
    (getCurrentUser s).1.requests.length = s.requests.length + 1
    ∧ (resumeFetch (getCurrentUser s).1 (.ok (.vObj d))).2 = .vObj d
    ∧ (resumeFetch (getCurrentUser s).1 (.ok (.vObj d))).1.currentUser
        = .vObj d
    ∧ getCurrentUser (resumeFetch (getCurrentUser s).1 (.ok (.vObj d))).1
        = ((resumeFetch (getCurrentUser s).1 (.ok (.vObj d))).1,
           .resolved (.vObj d))
    ∧ (resumeFetch (getCurrentUser s).1 (.ok (.vObj d))).1.requests.length
        = s.requests.length + 1 := by
  rw [getCurrentUser_starts s t hcu hfp hti hte]
  refine ⟨by simp, rfl, rfl, ?_, by simp [resumeFetch]⟩
  exact getCurrentUser_cached _ rfl

/-- Witness for C4: fresh page, token `"tok"`, user object tagged 1. -/
theorem C4_witness :
    (resumeFetch (getCurrentUser (init [("access_token", "tok")] "/")).1
        (.ok (.vObj 1))).1.currentUser = JSValue.vObj 1 :=
  (C4_ok_caches (init [("access_token", "tok")] "/") "tok" 1
      rfl rfl rfl rfl).2.2.1

/-- C5: with no cached user, no fetch in flight and no stored token, a
call resolves to `null` with no state change, so no request is issued. -/
theorem C5_no_token (s : AuthState)
    (hcu : s.currentUser = .vNull)
    (hfp : s.fetchPromise = none)
    (hti : getItem s.storage "access_token" = none) :
    getCurrentUser s = (s, .resolved .vNull) := by
  simp [getCurrentUser, hcu, hfp, hti, truthy]

/-- Witness for C5: fresh page with empty storage. -/
theorem C5_witness :
    getCurrentUser (init [] "/") = (init [] "/", CallResult.resolved .vNull) :=
  C5_no_token (init [] "/") rfl rfl rfl

/-- C6: every settlement outcome clears the in-flight marker, and from
the settled state a call with a falsy cached user and a stored token
issues a fresh network request. -/
theorem C6_settle_clears_marker (s : AuthState) (o : FetchOutcome) :
    (resumeFetch s o).1.fetchPromise = none
    ∧ (∀ t, truthy (resumeFetch s o).1.currentUser = false →
        getItem (resumeFetch s o).1.storage "access_token" = some t →
        (t == "") = false →
        (getCurrentUser (resumeFetch s o).1).2
            = .pending (resumeFetch s o).1.nextPromiseId
        ∧ (getCurrentUser (resumeFetch s o).1).1.requests.length
            = (resumeFetch s o).1.requests.length + 1) := by
  refine ⟨by cases o <;> rfl, ?_⟩
  intro t hcu hti hte
  rw [getCurrentUser_starts _ t hcu (by cases o <;> rfl) hti hte]
  exact ⟨rfl, by simp⟩

/-- Witness for C6: a pending fetch that fails with a network error;
the next call re-issues the request. -/
theorem C6_witness :
    (getCurrentUser
        (resumeFetch (getCurrentUser (init [("access_token", "tok")] "/")).1
          .netError).1).2
      = CallResult.pending 1 :=
  ((C6_settle_clears_marker
      (getCurrentUser (init [("access_token", "tok")] "/")).1
      .netError).2 "tok" rfl rfl rfl).1

/-- C7: `logout()` removes the stored token, nulls the cached user, and
navigates to `/`; it is modelled as a pure state transformer with no
result value. -/
theorem C7_logout (s : AuthState) :
    (logout s).storage = removeItem s.storage "access_token"
    ∧ getItem (logout s).storage "access_token" = none
    ∧ (logout s).currentUser = .vNull
    ∧ (logout s).location = "/" :=
  ⟨rfl, getItem_removeItem s.storage "access_token", rfl, rfl⟩

/-- C8: `clearUserCache()` nulls only the cached user, leaving storage
and the in-flight marker untouched; when idle with a stored token the
next call then issues a fresh request. -/
theorem C8_clearUserCache (s : AuthState) :
    (clearUserCache s).currentUser = .vNull
    ∧ (clearUserCache s).storage = s.storage
    ∧ (clearUserCache s).fetchPromise = s.fetchPromise
    ∧ (∀ t, s.fetchPromise = none →
        getItem s.storage "access_token" = some t →
        (t == "") = false →
        (getCurrentUser (clearUserCache s)).2 = .pending s.nextPromiseId
        ∧ (getCurrentUser (clearUserCache s)).1.requests.length
            = s.requests.length + 1) := by
  refine ⟨rfl, rfl, rfl, ?_⟩
  intro t hfp hti hte
  rw [getCurrentUser_starts (clearUserCache s) t rfl hfp hti hte]
  exact ⟨rfl, by simp [clearUserCache]⟩

/-- Witness for C8: a state with a cached user and a token; after
clearing the cache the next call re-fetches. -/
theorem C8_witness :
    (getCurrentUser
        (clearUserCache
          ⟨.vObj 1, none, [("access_token", "tok")], 0, [], [], "/"⟩)).2
      = CallResult.pending 0 :=
  ((C8_clearUserCache
      ⟨.vObj 1, none, [("access_token", "tok")], 0, [], [], "/"⟩).2.2.2
    "tok" rfl rfl rfl).1

/-- C9: an OK response with a falsy JSON body resolves to that value and
assigns it to the cached user, but the cache is ineffective: with a
stored token the next call does not serve the cache and issues a new
request. -/
theorem C9_falsy_body (s : AuthState) (body : JSValue)
    (hb : truthy body = false) :
    (resumeFetch s (.ok body)).2 = body
    ∧ (resumeFetch s (.ok body)).1.currentUser = body
    ∧ (∀ t, getItem s.storage "access_token" = some t →
        (t == "") = false →
        (getCurrentUser (resumeFetch s (.ok body)).1).2
            = .pending s.nextPromiseId
        ∧ (getCurrentUser (resumeFetch s (.ok body)).1).1.requests.length
            = s.requests.length + 1) := by
  refine ⟨rfl, rfl, ?_⟩
  intro t hti hte
  rw [getCurrentUser_starts (resumeFetch s (.ok body)).1 t hb rfl hti hte]
  exact ⟨rfl, by simp [resumeFetch]⟩

/-- Witness for C9: an OK response whose body is JSON `null`. -/
theorem C9_witness :
    (getCurrentUser
        (resumeFetch (init [("access_token", "tok")] "/")
          (.ok .vNull)).1).2
      = CallResult.pending 0 :=
  ((C9_falsy_body (init [("access_token", "tok")] "/") .vNull rfl).2.2
    "tok" rfl rfl).1

/-- C10: `logout()` leaves the in-flight marker exactly as it was; if
the pending fetch later settles OK, its body becomes the cached user, so
after a logout the cached user can become non-null (a user object) with
no further call. -/
theorem C10_logout_marker (s : AuthState) :
    (logout s).fetchPromise = s.fetchPromise
    ∧ (∀ body, (resumeFetch (logout s) (.ok body)).1.currentUser = body)
    ∧ (∀ d, (resumeFetch (logout s) (.ok (.vObj d))).1.currentUser
        ≠ .vNull) := by
  refine ⟨rfl, fun _ => rfl, fun d h => ?_⟩
  exact JSValue.noConfusion h

/-- Witness for C10: logout during a pending fetch, which then resolves
with a user object. -/
theorem C10_witness :
    (resumeFetch
        (logout (getCurrentUser (init [("access_token", "tok")] "/")).1)
        (.ok (.vObj 1))).1.currentUser ≠ JSValue.vNull :=
  (C10_logout_marker
      (getCurrentUser (init [("access_token", "tok")] "/")).1).2.2 1

end Auth
